import Mathlib

/-!
Verification of the DOOR rate-oracle pipeline (collectors, aggregator,
circuit breaker, retry executor, rate pusher, runner) against its
natural-language specification.

The definitions below are a shallow embedding of the TypeScript source:
pure functions become Lean functions, stateful objects become explicit
state passing, JavaScript numbers become `Int`/`ℚ` with `Math.round`
modelled as floor of (x + 1/2), and fallible asynchronous operations
become `Except`/`Option` values supplied by an explicit environment.
Timing (retry delays, timeouts) only suspends tasks and is dropped;
`Date.now()` becomes an explicit `now : Int` parameter.
-/

/-- Rate source identifiers; a fixed closed enumeration matching the
`RateSourceId` enum in the collectors module. -/
inductive RateSourceId where
  | TESR
  | METH
  | SOFR
  | AAVE_USDT
  | ONDO_USDY
deriving DecidableEq, Fintype, Repr

/-- One source's rate observation, matching the `RateData` interface:
`rate` is an integer number of basis points, `source` is the origin
marker ("live" endpoint host or the literal fallback marker), `isLive`
records whether a live endpoint produced the value. -/
structure RateData where
  sourceId : RateSourceId
  name : String
  rate : Int
  timestamp : Int
  source : String
  isLive : Bool
deriving DecidableEq, Repr

/-- The fixed per-source aggregation weights (basis points of 10000),
from the `weights` record inside `calculateDOR`. -/
def weights : RateSourceId → Int
  | .TESR => 2000
  | .METH => 3000
  | .SOFR => 2500
  | .AAVE_USDT => 1500
  | .ONDO_USDY => 1000

/-- `Math.round(num / den)` for integers: JavaScript `Math.round x`
is `⌊x + 1/2⌋` (halves round toward +∞), and for `den ≠ 0` we have
`⌊num/den + 1/2⌋ = ⌊(2*num + den) / (2*den)⌋`, a floor division. -/
def jsRound (num den : Int) : Int :=
  Int.fdiv (2 * num + den) (2 * den)

/-- The `weightedSum` accumulator of `calculateDOR`: sum over the
observation list of `rate.rate * weights[rate.sourceId]`. -/
def weightedSum (rates : List RateData) : Int :=
  (rates.map (fun r => r.rate * weights r.sourceId)).sum

/-- The `totalWeight` accumulator of `calculateDOR`: sum of the weights
of the sources present in the observation list. -/
def totalWeight (rates : List RateData) : Int :=
  (rates.map (fun r => weights r.sourceId)).sum

/-- `calculateDOR` from the collectors module: weighted mean of the
observations present (denominator is the sum of present sources'
weights), rounded with `Math.round`; if the total weight is 0 it
returns the hardcoded default of 460 bps. -/
def calculateDOR (rates : List RateData) : Int :=
  if totalWeight rates = 0 then 460
  else jsRound (weightedSum rates) (totalWeight rates)

-- ===== validateRates =====

/-- Result record of `validateRates`. -/
structure ValidationResult where
  isValid : Bool
  warnings : List String
  errors : List String
deriving DecidableEq, Repr

/-- The minimum-source-count error of `validateRates` (pushed when
fewer than 3 observations are present). -/
def lengthErrors (rates : List RateData) : List String :=
  let n := rates.length
  if n < 3 then [s!"Only {n}/5 sources available (minimum 3 required)"] else []

/-- The staleness warnings of `validateRates` (observation older than
24 hours); `now` stands for `Date.now()`. -/
def staleWarnings (now : Int) (rates : List RateData) : List String :=
  rates.filterMap (fun r =>
    let nm := r.name
    if now - r.timestamp > 24 * 60 * 60 * 1000 then
      some s!"{nm} data is stale (> 24h old)"
    else none)

/-- The negative-rate errors of `validateRates`. The source renders the
rate as `rate / 100` percent; the numeric formatting of that display is
abstracted (only the emission condition matters to any claim). -/
def negativeRateErrors (rates : List RateData) : List String :=
  rates.filterMap (fun r =>
    let nm := r.name
    let bps := r.rate
    if r.rate < 0 then some s!"{nm} has negative rate: {bps} bps" else none)

/-- The implausibly-high-rate warnings of `validateRates` (rate above
5000 bps = 50%); display formatting abstracted as in
`negativeRateErrors`. -/
def highRateWarnings (rates : List RateData) : List String :=
  rates.filterMap (fun r =>
    let nm := r.name
    let bps := r.rate
    if r.rate > 5000 then some s!"{nm} has unusually high rate: {bps} bps" else none)

/-- Number of non-live (fallback) observations, as counted by
`rates.filter(r => !r.isLive).length`. -/
def fallbackCount (rates : List RateData) : Nat :=
  (rates.filter (fun r => !r.isLive)).length

/-- The literal too-many-fallback warning string of `validateRates`. -/
def mkFallbackWarning (c : Nat) : String :=
  s!"{c}/5 sources using fallback values"

/-- The fallback-percentage warning of `validateRates`: emitted exactly
when more than 2 observations are non-live. -/
def fallbackWarnings (rates : List RateData) : List String :=
  let c := fallbackCount rates
  if c > 2 then [mkFallbackWarning c] else []

/-- `validateRates` from the collectors module: errors are the
minimum-count error followed by negative-rate errors; warnings are the
staleness warnings, then high-rate warnings, then the fallback-count
warning, in source order; `isValid` holds iff the error list is
empty. -/
def validateRates (now : Int) (rates : List RateData) : ValidationResult :=
  let errs := lengthErrors rates ++ negativeRateErrors rates
  { isValid := errs.isEmpty
    warnings := staleWarnings now rates ++ highRateWarnings rates ++ fallbackWarnings rates
    errors := errs }

-- ===== Concrete observations used by the end-to-end scenario =====

/-- The TESR observation of the spec's end-to-end scenario (350 bps, live). -/
def obsTESR : RateData :=
  { sourceId := .TESR, name := "TESR", rate := 350, timestamp := 0,
    source := "api.treehouse.finance", isLive := true }

/-- The METH observation of the spec's end-to-end scenario (450 bps, live). -/
def obsMETH : RateData :=
  { sourceId := .METH, name := "mETH", rate := 450, timestamp := 0,
    source := "Mantle API", isLive := true }

/-- The SOFR observation of the spec's end-to-end scenario (460 bps, live). -/
def obsSOFR : RateData :=
  { sourceId := .SOFR, name := "SOFR", rate := 460, timestamp := 0,
    source := "markets.newyorkfed.org", isLive := true }

/-- The Aave USDT observation of the spec's end-to-end scenario (550 bps, live). -/
def obsAAVE : RateData :=
  { sourceId := .AAVE_USDT, name := "Aave_USDT", rate := 550, timestamp := 0,
    source := "Aave API", isLive := true }

/-- The Ondo USDY observation of the spec's end-to-end scenario (500 bps, live). -/
def obsONDO : RateData :=
  { sourceId := .ONDO_USDY, name := "Ondo_USDY", rate := 500, timestamp := 0,
    source := "Ondo API", isLive := true }

/-- The full observation set of the spec's end-to-end scenario. -/
def demoRates : List RateData := [obsTESR, obsMETH, obsSOFR, obsAAVE, obsONDO]

/-- Claim C1 (counterexample): on the end-to-end scenario observation set
the aggregation does not return 445: the exact weighted mean is
4525000 / 10000 = 452.5, which `Math.round` takes to 453. -/
theorem c1_counterexample : calculateDOR demoRates ≠ 445 := by decide

/-- Claim C1 (amended): for the observation set [TESR=350, METH=450,
SOFR=460, AAVE_USDT=550, ONDO_USDY=500], all live, under the fixed
weights 2000/3000/2500/1500/1000, `calculateDOR` returns 453 bps
(the weighted mean 452.5 rounded half-up by `Math.round`). -/
theorem c1_calculateDOR_demo : calculateDOR demoRates = 453 := by decide

-- ===== Retry executor =====

/-- Retry configuration, matching the `RetryConfig` interface of the
pusher module (delays are timing-only and do not affect results). -/
structure RetryConfig where
  maxRetries : Nat
  baseDelayMs : Nat
  maxDelayMs : Nat
  backoffMultiplier : Nat
deriving DecidableEq, Repr

/-- `DEFAULT_RETRY_CONFIG` of the pusher module. -/
def DEFAULT_RETRY_CONFIG : RetryConfig :=
  { maxRetries := 3, baseDelayMs := 2000, maxDelayMs := 30000, backoffMultiplier := 2 }

/-- Loop body of `withRetry`: `attempt` is the 1-based attempt number,
`remaining` the attempts left, `last` the last error seen (`none` before
the first attempt, as in the source's `lastError = null`). Returns the
result together with the number of invocations of the operation. -/
def retryAux (fn : Nat → Except E A) (attempt remaining : Nat) (last : Option E) :
    Except (Option E) A × Nat :=
  match remaining with
  | 0 => (.error last, 0)
  | r + 1 =>
    match fn attempt with
    | .ok v => (.ok v, 1)
    | .error e =>
      let res := retryAux fn (attempt + 1) r (some e)
      (res.1, res.2 + 1)

/-- `withRetry` from the pusher and collector modules (both have the
same retry control flow; they differ only in backoff timing, which has
no observable effect on results). The operation is modelled as a
function of the attempt number; the second component counts how many
times the operation was invoked. After `maxRetries` failed attempts the
last error propagates. -/
def withRetry (fn : Nat → Except E A) (maxRetries : Nat) : Except (Option E) A × Nat :=
  retryAux fn 1 maxRetries none

/-- Claim C8: an operation that fails on attempts 1 and 2 and succeeds
on attempt 3, run under `withRetry` with `maxRetries = 3`, returns the
success value and is invoked exactly 3 times. -/
theorem c8_withRetry_third_attempt {E A : Type} (fn : Nat → Except E A)
    (e1 e2 : E) (v : A)
    (h1 : fn 1 = .error e1) (h2 : fn 2 = .error e2) (h3 : fn 3 = .ok v) :
    withRetry fn 3 = (.ok v, 3) := by
  simp [withRetry, retryAux, h1, h2, h3]

/-- Example operation for the C8 witness: fails on attempts 1 and 2,
succeeds with 42 from attempt 3 on. -/
def retryExampleOp : Nat → Except String Nat :=
  fun a => if 3 ≤ a then .ok 42 else .error "transient"

/-- Claim C8 witness: `withRetry` on the concrete example operation. -/
theorem c8_withRetry_witness : withRetry retryExampleOp 3 = (.ok 42, 3) :=
  c8_withRetry_third_attempt retryExampleOp "transient" "transient" 42 rfl rfl rfl

-- ===== Circuit breaker =====

/-- Circuit breaker states, matching the `CircuitState` enum. -/
inductive CircuitState where
  | CLOSED
  | OPEN
  | HALF_OPEN
deriving DecidableEq, Repr

/-- Circuit breaker configuration, matching `CircuitBreakerConfig`. -/
structure CircuitBreakerConfig where
  failureThreshold : Nat
  resetTimeoutMs : Int
  halfOpenMaxAttempts : Nat
deriving DecidableEq, Repr

/-- The mutable fields of the `CircuitBreaker` class. -/
structure CBState where
  state : CircuitState
  failureCount : Nat
  lastFailureTime : Int
  halfOpenAttempts : Nat
deriving DecidableEq, Repr

/-- The initial state of a freshly constructed `CircuitBreaker`. -/
def cbInit : CBState :=
  { state := .CLOSED, failureCount := 0, lastFailureTime := 0, halfOpenAttempts := 0 }

/-- The breaker configuration the `RatePusher` constructor installs:
threshold 3, reset timeout 5 minutes, 2 half-open attempts. -/
def pushBreakerCfg : CircuitBreakerConfig :=
  { failureThreshold := 3, resetTimeoutMs := 5 * 60 * 1000, halfOpenMaxAttempts := 2 }

/-- The HALF_OPEN admission check inside `CircuitBreaker.execute`:
increments `halfOpenAttempts` and reopens the breaker (recording the
failure time) when the cap is exceeded. Returns `some message` when the
call is rejected (operation not invoked), `none` when admitted. -/
def halfOpenCheck (cfg : CircuitBreakerConfig) (s : CBState) (now : Int) :
    Option String × CBState :=
  if s.state = .HALF_OPEN then
    let s1 := { s with halfOpenAttempts := s.halfOpenAttempts + 1 }
    if s1.halfOpenAttempts > cfg.halfOpenMaxAttempts then
      (some "Circuit breaker: too many half-open attempts, reopening",
       { s1 with state := .OPEN, lastFailureTime := now })
    else (none, s1)
  else (none, s)

/-- The admission phase of `CircuitBreaker.execute` (everything before
the guarded operation runs): an OPEN breaker rejects until
`resetTimeout` has elapsed since the last failure, then transitions to
HALF_OPEN with the attempt counter cleared; HALF_OPEN admission is then
checked. Returns `some message` when the call is rejected without
invoking the operation. -/
def gateStep (cfg : CircuitBreakerConfig) (s : CBState) (now : Int) :
    Option String × CBState :=
  if s.state = .OPEN then
    if now - s.lastFailureTime ≥ cfg.resetTimeoutMs then
      halfOpenCheck cfg { s with state := .HALF_OPEN, halfOpenAttempts := 0 } now
    else (some "Circuit breaker is OPEN - refusing request", s)
  else halfOpenCheck cfg s now

/-- `CircuitBreaker.onSuccess`: clears the failure counter and closes a
HALF_OPEN breaker. -/
def onSuccess (s : CBState) : CBState :=
  { s with failureCount := 0,
           state := if s.state = .HALF_OPEN then .CLOSED else s.state }

/-- `CircuitBreaker.onFailure`: increments the failure counter, records
the failure time, and opens the breaker at the threshold. -/
def onFailure (cfg : CircuitBreakerConfig) (s : CBState) (now : Int) : CBState :=
  let fc := s.failureCount + 1
  { s with failureCount := fc, lastFailureTime := now,
           state := if fc ≥ cfg.failureThreshold then .OPEN else s.state }

/-- Observable outcome of one `CircuitBreaker.execute` call:
`rejected` means the underlying operation was never invoked. -/
inductive ExecOutcome (E A : Type) where
  | rejected (msg : String)
  | succeeded (a : A)
  | opFailed (e : E)
deriving DecidableEq, Repr

/-- One `CircuitBreaker.execute` call: the guarded operation's outcome
(when it is actually invoked) is supplied as `op`; `now` stands for
`Date.now()` during the call. -/
def executeStep (cfg : CircuitBreakerConfig) (s : CBState) (now : Int)
    (op : Except E A) : ExecOutcome E A × CBState :=
  match gateStep cfg s now with
  | (some msg, s1) => (.rejected msg, s1)
  | (none, s1) =>
    match op with
    | .ok a => (.succeeded a, onSuccess s1)
    | .error e => (.opFailed e, onFailure cfg s1 now)

/-- Claim C2: starting from a fresh breaker, three consecutive failures
of the guarded operation leave the breaker OPEN; a further call before
`resetTimeout` has elapsed since the last failure is rejected without
invoking the operation (any operation outcome `op4` gives the same
rejection) and leaves the state unchanged; once `resetTimeout` has
elapsed the next call is admitted (the gate reports no rejection and
moves the breaker to HALF_OPEN), and if the operation succeeds the
breaker ends CLOSED with the failure counter reset to 0. -/
theorem c2_circuit_breaker (t1 t2 t3 t4 t5 : Int) (op4 : Except Unit Unit)
    (h4 : t4 - t3 < pushBreakerCfg.resetTimeoutMs)
    (h5 : pushBreakerCfg.resetTimeoutMs ≤ t5 - t3) :
    let s1 := (executeStep pushBreakerCfg cbInit t1 (Except.error () : Except Unit Unit)).2
    let s2 := (executeStep pushBreakerCfg s1 t2 (Except.error () : Except Unit Unit)).2
    let s3 := (executeStep pushBreakerCfg s2 t3 (Except.error () : Except Unit Unit)).2
    s3.state = .OPEN ∧
    executeStep pushBreakerCfg s3 t4 op4 =
      (.rejected "Circuit breaker is OPEN - refusing request", s3) ∧
    (gateStep pushBreakerCfg s3 t5).1 = none ∧
    (gateStep pushBreakerCfg s3 t5).2.state = .HALF_OPEN ∧
    (executeStep pushBreakerCfg s3 t5 (Except.ok () : Except Unit Unit)).1 = .succeeded () ∧
    (executeStep pushBreakerCfg s3 t5 (Except.ok () : Except Unit Unit)).2.state = .CLOSED ∧
    (executeStep pushBreakerCfg s3 t5 (Except.ok () : Except Unit Unit)).2.failureCount = 0 := by
  have e1 : (executeStep pushBreakerCfg cbInit t1 (Except.error () : Except Unit Unit)).2 =
      { state := .CLOSED, failureCount := 1, lastFailureTime := t1, halfOpenAttempts := 0 } := by
    rfl
  have e2 : (executeStep pushBreakerCfg
      { state := .CLOSED, failureCount := 1, lastFailureTime := t1, halfOpenAttempts := 0 }
      t2 (Except.error () : Except Unit Unit)).2 =
      { state := .CLOSED, failureCount := 2, lastFailureTime := t2, halfOpenAttempts := 0 } := by
    rfl
  have e3 : (executeStep pushBreakerCfg
      { state := .CLOSED, failureCount := 2, lastFailureTime := t2, halfOpenAttempts := 0 }
      t3 (Except.error () : Except Unit Unit)).2 =
      { state := .OPEN, failureCount := 3, lastFailureTime := t3, halfOpenAttempts := 0 } := by
    rfl
  intro s1 s2 s3
  have hs3 :
      s3 = { state := .OPEN, failureCount := 3, lastFailureTime := t3, halfOpenAttempts := 0 } := by
    show (executeStep pushBreakerCfg
      (executeStep pushBreakerCfg
        (executeStep pushBreakerCfg cbInit t1 (Except.error () : Except Unit Unit)).2 t2 (Except.error () : Except Unit Unit)).2
      t3 (Except.error () : Except Unit Unit)).2 = _
    rw [e1, e2, e3]
  have hlt : ¬ (t4 - t3 ≥ pushBreakerCfg.resetTimeoutMs) := by
    simpa using not_le.mpr h4
  have hge : (300000 : Int) ≤ t5 - t3 := by
    have := h5
    simp only [pushBreakerCfg] at this
    omega
  refine ⟨by rw [hs3], ?_, ?_, ?_, ?_, ?_, ?_⟩
  · rw [hs3]
    simp [executeStep, gateStep, hlt]
  · rw [hs3]
    simp [gateStep, halfOpenCheck, pushBreakerCfg, hge]
  · rw [hs3]
    simp [gateStep, halfOpenCheck, pushBreakerCfg, hge]
  · rw [hs3]
    simp [executeStep, gateStep, halfOpenCheck, onSuccess, pushBreakerCfg, hge]
  · rw [hs3]
    simp [executeStep, gateStep, halfOpenCheck, onSuccess, pushBreakerCfg, hge]
  · rw [hs3]
    simp [executeStep, gateStep, halfOpenCheck, onSuccess, pushBreakerCfg, hge]

/-- The breaker state after three consecutive failed calls at times
0, 1, 2, used by the C2 witness. -/
def cbAfter3 : CBState :=
  (executeStep pushBreakerCfg
    (executeStep pushBreakerCfg
      (executeStep pushBreakerCfg cbInit 0 (Except.error () : Except Unit Unit)).2
      1 (Except.error () : Except Unit Unit)).2
    2 (Except.error () : Except Unit Unit)).2

/-- Claim C2 witness: the breaker scenario at concrete times 0, 1, 2,
3 (one millisecond after the third failure, well inside the 5-minute
reset timeout) and 300002 (past the timeout). -/
theorem c2_circuit_breaker_witness :
    cbAfter3.state = .OPEN ∧
    executeStep pushBreakerCfg cbAfter3 3 (Except.error () : Except Unit Unit) =
      (.rejected "Circuit breaker is OPEN - refusing request", cbAfter3) ∧
    (gateStep pushBreakerCfg cbAfter3 300002).1 = none ∧
    (gateStep pushBreakerCfg cbAfter3 300002).2.state = .HALF_OPEN ∧
    (executeStep pushBreakerCfg cbAfter3 300002 (Except.ok () : Except Unit Unit)).1 =
      .succeeded () ∧
    (executeStep pushBreakerCfg cbAfter3 300002 (Except.ok () : Except Unit Unit)).2.state =
      .CLOSED ∧
    (executeStep pushBreakerCfg cbAfter3 300002
      (Except.ok () : Except Unit Unit)).2.failureCount = 0 :=
  c2_circuit_breaker 0 1 2 3 300002 (Except.error () : Except Unit Unit) (by decide) (by decide)

-- ===== Source collectors =====

/-- Collector configuration, matching `CollectorConfig`. -/
structure CollectorConfig where
  maxRetries : Nat
  retryDelayMs : Nat
  timeoutMs : Nat
deriving DecidableEq, Repr

/-- `DEFAULT_CONFIG` of the collectors module. -/
def DEFAULT_CONFIG : CollectorConfig :=
  { maxRetries := 3, retryDelayMs := 1000, timeoutMs := 15000 }

/-- A fetch-and-parse outcome (`none` = network error, missing field or
non-finite number, all of which the source treats as a thrown error)
viewed as the `Except` value the retry loop sees. -/
def toExcept : Option A → Except Unit A
  | some a => .ok a
  | none => .error ()

/-- One endpoint attempted under `withRetry`, as the collectors do:
the first successful parse among the allowed attempts, if any. -/
def collectorRetry (f : Nat → Option A) (maxRetries : Nat) : Option A :=
  match (withRetry (fun a => toExcept (f a)) maxRetries).1 with
  | .ok v => some v
  | .error _ => none

/-- If every attempt fails, `retryAux` ends in an error. -/
theorem retryAux_all_none {A : Type} (f : Nat → Option A) (h : ∀ a, f a = none) :
    ∀ (n attempt : Nat) (last : Option Unit),
      ∃ err, (retryAux (fun x => toExcept (f x)) attempt n last).1 = .error err := by
  intro n
  induction n with
  | zero => intro attempt last; exact ⟨last, rfl⟩
  | succ k ih =>
    intro attempt last
    have hx : toExcept (f attempt) = (.error () : Except Unit A) := by rw [h attempt]; rfl
    obtain ⟨err, herr⟩ := ih (attempt + 1) (some ())
    exact ⟨err, by simp [retryAux, hx, herr]⟩

/-- If every attempt fails, the collectors' retry wrapper yields `none`. -/
theorem collectorRetry_eq_none {A : Type} (f : Nat → Option A) (h : ∀ a, f a = none)
    (maxRetries : Nat) : collectorRetry f maxRetries = none := by
  obtain ⟨err, herr⟩ := retryAux_all_none f h maxRetries 1 none
  simp [collectorRetry, withRetry, herr]

/-- JavaScript `Math.round` on an exact rational: `⌊q + 1/2⌋`. -/
def jsRoundQ (q : ℚ) : Int := Int.floor (q + 1 / 2)

/-- `collectTESR`: tries the Treehouse endpoint then the DefiLlama
endpoint, each under `withRetry`; a parsed percent `q` yields a live
observation with `rate = Math.round(q * 100)` and the endpoint host as
origin; if both endpoints exhaust their retries it returns the
hardcoded fallback (350 bps, origin "Fallback", non-live). The
environment maps (endpoint index, attempt number) to the parse
outcome. -/
def collectTESR (env : Nat → Nat → Option ℚ) (now : Int) (cfg : CollectorConfig) : RateData :=
  match collectorRetry (env 0) cfg.maxRetries with
  | some q =>
    { sourceId := .TESR, name := "TESR", rate := jsRoundQ (q * 100), timestamp := now,
      source := "api.treehouse.finance", isLive := true }
  | none =>
    match collectorRetry (env 1) cfg.maxRetries with
    | some q =>
      { sourceId := .TESR, name := "TESR", rate := jsRoundQ (q * 100), timestamp := now,
        source := "yields.llama.fi", isLive := true }
    | none =>
      { sourceId := .TESR, name := "TESR", rate := 350, timestamp := now,
        source := "Fallback", isLive := false }

/-- `collectOndoUSDY`: tries the Ondo endpoint, the Ondo stats endpoint
and the RWA aggregator, each under `withRetry` (every live success is
labelled origin "Ondo API" in the source); if all three exhaust their
retries it returns the hardcoded fallback (500 bps, origin "Fallback",
non-live). -/
def collectOndoUSDY (env : Nat → Nat → Option ℚ) (now : Int) (cfg : CollectorConfig) : RateData :=
  match collectorRetry (env 0) cfg.maxRetries with
  | some q =>
    { sourceId := .ONDO_USDY, name := "Ondo_USDY", rate := jsRoundQ (q * 100), timestamp := now,
      source := "Ondo API", isLive := true }
  | none =>
    match collectorRetry (env 1) cfg.maxRetries with
    | some q =>
      { sourceId := .ONDO_USDY, name := "Ondo_USDY", rate := jsRoundQ (q * 100), timestamp := now,
        source := "Ondo API", isLive := true }
    | none =>
      match collectorRetry (env 2) cfg.maxRetries with
      | some q =>
        { sourceId := .ONDO_USDY, name := "Ondo_USDY", rate := jsRoundQ (q * 100), timestamp := now,
          source := "Ondo API", isLive := true }
      | none =>
        { sourceId := .ONDO_USDY, name := "Ondo_USDY", rate := 500, timestamp := now,
          source := "Fallback", isLive := false }

/-- The collector environment in which every endpoint fails on every
attempt. -/
def envNone : Nat → Nat → Option ℚ := fun _ _ => none

/-- Claim C4 (counterexample): in the all-failed case `collectTESR`
does return a non-live fallback observation, but its origin marker is
the capitalized literal "Fallback", not the claimed literal
"fallback". -/
theorem c4_counterexample :
    (collectTESR envNone 0 DEFAULT_CONFIG).isLive = false ∧
    (collectTESR envNone 0 DEFAULT_CONFIG).source ≠ "fallback" := by decide

/-- Claim C4 (amended): every collector `collect` function is total —
for every endpoint environment it returns an observation for its own
sourceId (it never throws to its caller) — and when every candidate
endpoint exhausts its retries it returns the source-specific hardcoded
fallback observation with `isLive = false` and origin equal to the
literal fallback marker "Fallback" (350 bps for TESR, 500 bps for Ondo
USDY). -/
theorem c4_collectors_fallback (env : Nat → Nat → Option ℚ) (now : Int) (cfg : CollectorConfig) :
    (collectTESR env now cfg).sourceId = .TESR ∧
    (collectOndoUSDY env now cfg).sourceId = .ONDO_USDY ∧
    ((∀ e a, env e a = none) →
      collectTESR env now cfg =
        { sourceId := .TESR, name := "TESR", rate := 350, timestamp := now,
          source := "Fallback", isLive := false } ∧
      collectOndoUSDY env now cfg =
        { sourceId := .ONDO_USDY, name := "Ondo_USDY", rate := 500, timestamp := now,
          source := "Fallback", isLive := false }) := by
  refine ⟨?_, ?_, ?_⟩
  · unfold collectTESR
    cases collectorRetry (env 0) cfg.maxRetries with
    | some q => rfl
    | none =>
      cases collectorRetry (env 1) cfg.maxRetries with
      | some q => rfl
      | none => rfl
  · unfold collectOndoUSDY
    cases collectorRetry (env 0) cfg.maxRetries with
    | some q => rfl
    | none =>
      cases collectorRetry (env 1) cfg.maxRetries with
      | some q => rfl
      | none =>
        cases collectorRetry (env 2) cfg.maxRetries with
        | some q => rfl
        | none => rfl
  · intro hall
    have hnone : ∀ e, collectorRetry (env e) cfg.maxRetries = none :=
      fun e => collectorRetry_eq_none (env e) (fun a => hall e a) cfg.maxRetries
    constructor
    · unfold collectTESR
      rw [hnone 0, hnone 1]
    · unfold collectOndoUSDY
      rw [hnone 0, hnone 1, hnone 2]

/-- Claim C4 witness: the all-failed environment at concrete inputs
produces exactly the hardcoded fallback observations. -/
theorem c4_collectors_fallback_witness :
    collectTESR envNone 0 DEFAULT_CONFIG =
      { sourceId := .TESR, name := "TESR", rate := 350, timestamp := 0,
        source := "Fallback", isLive := false } ∧
    collectOndoUSDY envNone 0 DEFAULT_CONFIG =
      { sourceId := .ONDO_USDY, name := "Ondo_USDY", rate := 500, timestamp := 0,
        source := "Fallback", isLive := false } :=
  (c4_collectors_fallback envNone 0 DEFAULT_CONFIG).2.2 (fun _ _ => rfl)

-- ===== Oracle runner =====

/-- Observable outcome of one `runUpdate` cycle: every constructor
except `pushed` is reached by a `throw`/early return in the source
before `RatePusher.fullUpdate` (the push phase) is invoked. `dryRunDone`
covers the dry-run branch, which calls `RatePusher.dryRun` but never
`fullUpdate`/`pushBatchRates`. -/
inductive RunOutcome where
  | noRates
  | validationFailed (errors : List String)
  | dryRunDone
  | notConfigured
  | authFailed
  | pushed
deriving DecidableEq, Repr

/-- The control flow of `runUpdate` up to the push phase: empty
collection throws; then `validateRates` gates the cycle; then the
dry-run split; `configured` stands for the ORACLE_ADDRESS/PRIVATE_KEY
presence checks and `isAuth` for the on-chain authorization check, both
of which throw before the push. -/
def runUpdate (now : Int) (rates : List RateData) (dryRun configured isAuth : Bool) :
    RunOutcome :=
  if rates.length = 0 then .noRates
  else if (validateRates now rates).isValid = false then
    .validationFailed (validateRates now rates).errors
  else if dryRun then .dryRunDone
  else if configured = false then .notConfigured
  else if isAuth = false then .authFailed
  else .pushed

/-- Whether the push phase (`RatePusher.fullUpdate`, hence
`pushBatchRates`) was invoked in a cycle. -/
def pushInvoked : RunOutcome → Bool
  | .pushed => true
  | _ => false

/-- Claim C3: for every observation set with fewer than 3 observations,
`validateRates` reports an error (`isValid = false`), and a `runUpdate`
cycle on such a set never reaches the push phase, in every mode. -/
theorem c3_too_few_sources_no_push (now : Int) (rates : List RateData)
    (dryRun configured isAuth : Bool) (h : rates.length < 3) :
    (validateRates now rates).isValid = false ∧
    pushInvoked (runUpdate now rates dryRun configured isAuth) = false := by
  have hlen : lengthErrors rates ≠ [] := by
    simp [lengthErrors, h]
  have hv : (validateRates now rates).isValid = false := by
    rcases he : lengthErrors rates with _ | ⟨x, xs⟩
    · exact absurd he hlen
    · simp [validateRates, he]
  refine ⟨hv, ?_⟩
  by_cases h0 : rates.length = 0
  · simp [runUpdate, h0, pushInvoked]
  · simp [runUpdate, h0, hv, pushInvoked]

/-- Claim C3 witness: a two-observation set fails validation and its
cycle never pushes, even in live mode with full configuration and
authorization. -/
theorem c3_too_few_sources_no_push_witness :
    (validateRates 0 [obsTESR, obsMETH]).isValid = false ∧
    pushInvoked (runUpdate 0 [obsTESR, obsMETH] false true true) = false :=
  c3_too_few_sources_no_push 0 [obsTESR, obsMETH] false true true (by decide)

-- ===== Rate pusher =====

/-- Environment seen by one `submitOnce` attempt inside
`pushBatchRates`: the gas estimation outcome (`none` = estimation
threw, so the hardcoded default 500000 is used), the current gas price,
and whether the submitted transaction confirms with status 1. -/
structure PushAttemptEnv where
  gasEstimate : Option Int
  gasPrice : Int
  txConfirmOk : Bool
deriving DecidableEq, Repr

/-- The distinguishable failure modes of one push attempt. -/
inductive PushError where
  | gasPriceTooHigh
  | txFailed
deriving DecidableEq, Repr

/-- One attempt of the operation `pushBatchRates` hands to `withRetry`:
estimate gas (falling back to the 500000 default on estimation
failure), check the configured `maxGasPrice` cap (throwing the
gas-price error when exceeded, before any transaction is sent), then
submit and require a status-1 confirmation. The source guards the cap
check with JS truthiness — `this.config.maxGasPrice && gasPrice > ...`
— so an absent cap (`none`) and a configured cap of `0n` (falsy) both
disable the check. -/
def submitOnce (maxGasPrice : Option Int) (env : Nat → PushAttemptEnv) (attempt : Nat) :
    Except PushError Unit :=
  let e := env attempt
  let _gasLimit := e.gasEstimate.getD 500000
  let gasTooHigh : Bool := match maxGasPrice with
    | some cap => decide (cap ≠ 0) && decide (e.gasPrice > cap)
    | none => false
  if gasTooHigh then .error .gasPriceTooHigh
  else if e.txConfirmOk then .ok ()
  else .error .txFailed

/-- `RatePusher.pushBatchRates`: the retrying submission wrapped in the
circuit breaker (`circuitBreaker.execute(() => withRetry(...))`). The
third component counts how many times `submitOnce` ran (0 when the
breaker rejects the call). -/
def pushBatchRates (maxGasPrice : Option Int) (env : Nat → PushAttemptEnv)
    (cb : CBState) (now : Int) : ExecOutcome (Option PushError) Unit × CBState × Nat :=
  match gateStep pushBreakerCfg cb now with
  | (some msg, s1) => (.rejected msg, s1, 0)
  | (none, s1) =>
    let r := withRetry (submitOnce maxGasPrice env) DEFAULT_RETRY_CONFIG.maxRetries
    match r.1 with
    | .ok a => (.succeeded a, onSuccess s1, r.2)
    | .error e => (.opFailed e, onFailure pushBreakerCfg s1 now, r.2)

/-- A push environment whose gas price (20) always exceeds the cap
used in the counterexample (10). -/
def highGasEnv : Nat → PushAttemptEnv :=
  fun _ => { gasEstimate := some 100000, gasPrice := 20, txConfirmOk := true }

/-- Claim C5 (counterexample): with the gas price above the configured
cap, one `pushBatchRates` call invokes the cost-cap-rejected operation
3 times — `withRetry` re-attempts the policy rejection, so the
submission attempt is not made exactly once as the claim requires. -/
theorem c5_counterexample :
    (pushBatchRates (some 10) highGasEnv cbInit 0).2.2 = 3 ∧
    ¬ (pushBatchRates (some 10) highGasEnv cbInit 0).2.2 ≤ 1 := by decide

/-- Claim C5 (amended): when a nonzero `maxGasPrice` cap is configured
(a cap of 0 is falsy in the source and disables the check) and the
observed gas price exceeds it on every attempt, `pushBatchRates` aborts
with the gas-price error, but only after `withRetry` has re-attempted
the operation `maxRetries = 3` times within the same push call — the
cost-cap rejection is retried like any other failure (and the final
error is recorded as a circuit-breaker failure). -/
theorem c5_gas_cap_retried (cap : Int) (env : Nat → PushAttemptEnv) (now : Int)
    (hcap : cap ≠ 0) (h : ∀ a, (env a).gasPrice > cap) :
    (pushBatchRates (some cap) env cbInit now).1 =
      .opFailed (some .gasPriceTooHigh) ∧
    (pushBatchRates (some cap) env cbInit now).2.2 = DEFAULT_RETRY_CONFIG.maxRetries := by
  have hsub : ∀ a, submitOnce (some cap) env a = .error .gasPriceTooHigh := by
    intro a
    simp [submitOnce, decide_eq_true_eq, hcap, h a]
  constructor <;>
    simp [pushBatchRates, gateStep, halfOpenCheck, cbInit, withRetry, retryAux, hsub,
      DEFAULT_RETRY_CONFIG]

/-- Claim C5 witness: the amended behavior at the concrete nonzero cap
10 and constant gas price 20. -/
theorem c5_gas_cap_retried_witness :
    (pushBatchRates (some 10) highGasEnv cbInit 0).1 =
      .opFailed (some .gasPriceTooHigh) ∧
    (pushBatchRates (some 10) highGasEnv cbInit 0).2.2 = DEFAULT_RETRY_CONFIG.maxRetries :=
  c5_gas_cap_retried 10 highGasEnv 0 (by norm_num) (fun _ => by simp [highGasEnv])

-- ===== Aggregation properties =====

/-- Every fixed source weight is positive. -/
theorem weights_pos : ∀ s : RateSourceId, 0 < weights s := by decide

/-- Every fixed source weight is nonnegative. -/
theorem weights_nonneg (s : RateSourceId) : 0 ≤ weights s := le_of_lt (weights_pos s)

/-- Five pairwise-distinct sourceIds exhaust the enumeration, so their
weights sum to the full 10000 bps. -/
theorem nodup5_weight_sum :
    ∀ s0 s1 s2 s3 s4 : RateSourceId, ([s0, s1, s2, s3, s4] : List RateSourceId).Nodup →
      weights s0 + weights s1 + weights s2 + weights s3 + weights s4 = 10000 := by decide

/-- The weights of a duplicate-free list of sourceIds sum to at most
10000 bps (they are a sub-sum of the full weight table). -/
theorem weight_sum_nodup_le (l : List RateSourceId) (hl : l.Nodup) :
    (l.map weights).sum ≤ 10000 := by
  have h1 : l.toFinset.sum weights = (l.map weights).sum := List.sum_toFinset weights hl
  have h2 : l.toFinset.sum weights ≤ (Finset.univ : Finset RateSourceId).sum weights :=
    Finset.sum_le_sum_of_subset_of_nonneg (Finset.subset_univ _)
      (fun i _ _ => weights_nonneg i)
  have h3 : (Finset.univ : Finset RateSourceId).sum weights = 10000 := by decide
  omega

/-- The total present weight is nonnegative. -/
theorem totalWeight_nonneg (rates : List RateData) : 0 ≤ totalWeight rates := by
  apply List.sum_nonneg
  intro x hx
  obtain ⟨r, _, rfl⟩ := List.mem_map.mp hx
  exact weights_nonneg r.sourceId

/-- The total present weight of a nonempty observation list is
positive. -/
theorem totalWeight_pos (rates : List RateData) (h : rates ≠ []) :
    0 < totalWeight rates := by
  obtain ⟨r, rs, rfl⟩ := List.exists_cons_of_ne_nil h
  have h1 : 0 < weights r.sourceId := weights_pos r.sourceId
  have h2 : 0 ≤ totalWeight rs := totalWeight_nonneg rs
  have h3 : totalWeight (r :: rs) = weights r.sourceId + totalWeight rs := by
    simp [totalWeight]
  omega

/-- The total present weight only depends on the present sourceIds. -/
theorem totalWeight_eq_map (rates : List RateData) :
    totalWeight rates = ((rates.map RateData.sourceId).map weights).sum := by
  simp only [totalWeight, List.map_map]
  rfl

/-- Rounding bound: if `lo * T ≤ W ≤ hi * T` with `T > 0`, then the
half-up rounding of `W / T` stays in `[lo, hi]`. -/
theorem jsRound_bounds (W T lo hi : Int) (hT : 0 < T)
    (hlo : lo * T ≤ W) (hhi : W ≤ hi * T) :
    lo ≤ jsRound W T ∧ jsRound W T ≤ hi := by
  have h2T : (0 : Int) < 2 * T := by omega
  have hfd : Int.fdiv (2 * W + T) (2 * T) = (2 * W + T) / (2 * T) :=
    Int.fdiv_eq_ediv _ (le_of_lt h2T)
  constructor
  · rw [jsRound, hfd, Int.le_ediv_iff_mul_le h2T]
    have hexp : lo * (2 * T) = 2 * (lo * T) := by ring
    omega
  · rw [jsRound, hfd]
    have hlt : (2 * W + T) / (2 * T) < hi + 1 := by
      rw [Int.ediv_lt_iff_lt_mul h2T]
      have hexp : (hi + 1) * (2 * T) = 2 * (hi * T) + 2 * T := by ring
      omega
    omega

/-- Claim C6: for every observation set of size 5 with one observation
per sourceId (so the present weights sum to 10000 bps), the aggregated
rate lies between the minimum and the maximum of the observations'
rates, inclusive. -/
theorem c6_dor_between_min_max (r0 r1 r2 r3 r4 : RateData)
    (hnd : ([r0.sourceId, r1.sourceId, r2.sourceId, r3.sourceId, r4.sourceId] :
      List RateSourceId).Nodup) :
    min (min (min (min r0.rate r1.rate) r2.rate) r3.rate) r4.rate ≤
      calculateDOR [r0, r1, r2, r3, r4] ∧
    calculateDOR [r0, r1, r2, r3, r4] ≤
      max (max (max (max r0.rate r1.rate) r2.rate) r3.rate) r4.rate := by
  have hTW := nodup5_weight_sum r0.sourceId r1.sourceId r2.sourceId r3.sourceId r4.sourceId hnd
  have hT : totalWeight [r0, r1, r2, r3, r4] =
      weights r0.sourceId + weights r1.sourceId + weights r2.sourceId +
      weights r3.sourceId + weights r4.sourceId := by
    simp [totalWeight]
    ring
  have hW : weightedSum [r0, r1, r2, r3, r4] =
      r0.rate * weights r0.sourceId + r1.rate * weights r1.sourceId +
      r2.rate * weights r2.sourceId + r3.rate * weights r3.sourceId +
      r4.rate * weights r4.sourceId := by
    simp [weightedSum]
    ring
  set lo := min (min (min (min r0.rate r1.rate) r2.rate) r3.rate) r4.rate with hlo_def
  set hi := max (max (max (max r0.rate r1.rate) r2.rate) r3.rate) r4.rate with hhi_def
  have l4 : lo ≤ r4.rate := min_le_right _ _
  have lrest : lo ≤ min (min (min r0.rate r1.rate) r2.rate) r3.rate := min_le_left _ _
  have l3 : lo ≤ r3.rate := le_trans lrest (min_le_right _ _)
  have lrest2 : lo ≤ min (min r0.rate r1.rate) r2.rate := le_trans lrest (min_le_left _ _)
  have l2 : lo ≤ r2.rate := le_trans lrest2 (min_le_right _ _)
  have lrest3 : lo ≤ min r0.rate r1.rate := le_trans lrest2 (min_le_left _ _)
  have l1 : lo ≤ r1.rate := le_trans lrest3 (min_le_right _ _)
  have l0 : lo ≤ r0.rate := le_trans lrest3 (min_le_left _ _)
  have u4 : r4.rate ≤ hi := le_max_right _ _
  have urest : max (max (max r0.rate r1.rate) r2.rate) r3.rate ≤ hi := le_max_left _ _
  have u3 : r3.rate ≤ hi := le_trans (le_max_right _ _) urest
  have urest2 : max (max r0.rate r1.rate) r2.rate ≤ hi := le_trans (le_max_left _ _) urest
  have u2 : r2.rate ≤ hi := le_trans (le_max_right _ _) urest2
  have urest3 : max r0.rate r1.rate ≤ hi := le_trans (le_max_left _ _) urest2
  have u1 : r1.rate ≤ hi := le_trans (le_max_right _ _) urest3
  have u0 : r0.rate ≤ hi := le_trans (le_max_left _ _) urest3
  have p0 : lo * weights r0.sourceId ≤ r0.rate * weights r0.sourceId :=
    mul_le_mul_of_nonneg_right l0 (weights_nonneg _)
  have p1 : lo * weights r1.sourceId ≤ r1.rate * weights r1.sourceId :=
    mul_le_mul_of_nonneg_right l1 (weights_nonneg _)
  have p2 : lo * weights r2.sourceId ≤ r2.rate * weights r2.sourceId :=
    mul_le_mul_of_nonneg_right l2 (weights_nonneg _)
  have p3 : lo * weights r3.sourceId ≤ r3.rate * weights r3.sourceId :=
    mul_le_mul_of_nonneg_right l3 (weights_nonneg _)
  have p4 : lo * weights r4.sourceId ≤ r4.rate * weights r4.sourceId :=
    mul_le_mul_of_nonneg_right l4 (weights_nonneg _)
  have q0 : r0.rate * weights r0.sourceId ≤ hi * weights r0.sourceId :=
    mul_le_mul_of_nonneg_right u0 (weights_nonneg _)
  have q1 : r1.rate * weights r1.sourceId ≤ hi * weights r1.sourceId :=
    mul_le_mul_of_nonneg_right u1 (weights_nonneg _)
  have q2 : r2.rate * weights r2.sourceId ≤ hi * weights r2.sourceId :=
    mul_le_mul_of_nonneg_right u2 (weights_nonneg _)
  have q3 : r3.rate * weights r3.sourceId ≤ hi * weights r3.sourceId :=
    mul_le_mul_of_nonneg_right u3 (weights_nonneg _)
  have q4 : r4.rate * weights r4.sourceId ≤ hi * weights r4.sourceId :=
    mul_le_mul_of_nonneg_right u4 (weights_nonneg _)
  have hlo_bound : lo * 10000 ≤ weightedSum [r0, r1, r2, r3, r4] := by
    have hexp : lo * 10000 =
        lo * weights r0.sourceId + lo * weights r1.sourceId + lo * weights r2.sourceId +
        lo * weights r3.sourceId + lo * weights r4.sourceId := by
      rw [← hTW]; ring
    rw [hW]
    omega
  have hhi_bound : weightedSum [r0, r1, r2, r3, r4] ≤ hi * 10000 := by
    have hexp : hi * 10000 =
        hi * weights r0.sourceId + hi * weights r1.sourceId + hi * weights r2.sourceId +
        hi * weights r3.sourceId + hi * weights r4.sourceId := by
      rw [← hTW]; ring
    rw [hW]
    omega
  have hT10000 : totalWeight [r0, r1, r2, r3, r4] = 10000 := by rw [hT]; omega
  have hcd : calculateDOR [r0, r1, r2, r3, r4] =
      jsRound (weightedSum [r0, r1, r2, r3, r4]) 10000 := by
    rw [calculateDOR, hT10000]
    norm_num
  obtain ⟨hle, hge⟩ := jsRound_bounds (weightedSum [r0, r1, r2, r3, r4]) 10000 lo hi
    (by norm_num) hlo_bound hhi_bound
  rw [hcd]
  exact ⟨hle, hge⟩

/-- Claim C6 witness: the bound at the concrete end-to-end
observation set (minimum 350, maximum 550, aggregate 453). -/
theorem c6_dor_between_min_max_witness :
    min (min (min (min obsTESR.rate obsMETH.rate) obsSOFR.rate) obsAAVE.rate) obsONDO.rate ≤
      calculateDOR [obsTESR, obsMETH, obsSOFR, obsAAVE, obsONDO] ∧
    calculateDOR [obsTESR, obsMETH, obsSOFR, obsAAVE, obsONDO] ≤
      max (max (max (max obsTESR.rate obsMETH.rate) obsSOFR.rate) obsAAVE.rate) obsONDO.rate :=
  c6_dor_between_min_max obsTESR obsMETH obsSOFR obsAAVE obsONDO (by decide)

/-- The four-observation set (ONDO_USDY absent) used as the C7
witness input. -/
def rates4 : List RateData := [obsTESR, obsMETH, obsSOFR, obsAAVE]

/-- Claim C7: when some sourceId is absent from a duplicate-free
observation set, `calculateDOR` still returns a result (the total
present weight is positive, so the 0-weight default branch is not
taken), the denominator of the weighted mean is the sum of the present
sources' weights only — in particular it excludes the absent source's
weight: adding that weight back still stays within the 10000 bps
total. -/
theorem c7_absent_source_renormalizes (rates : List RateData) (s : RateSourceId)
    (hne : rates ≠ [])
    (hnd : (rates.map RateData.sourceId).Nodup)
    (habs : ∀ r ∈ rates, r.sourceId ≠ s) :
    0 < totalWeight rates ∧
    totalWeight rates + weights s ≤ 10000 ∧
    calculateDOR rates = jsRound (weightedSum rates) (totalWeight rates) := by
  have hpos : 0 < totalWeight rates := totalWeight_pos rates hne
  have hsnot : s ∉ rates.map RateData.sourceId := by
    intro hmem
    obtain ⟨r, hr, hrs⟩ := List.mem_map.mp hmem
    exact habs r hr hrs
  have hcons : (s :: rates.map RateData.sourceId).Nodup :=
    List.nodup_cons.mpr ⟨hsnot, hnd⟩
  have hle := weight_sum_nodup_le (s :: rates.map RateData.sourceId) hcons
  have hsum : ((s :: rates.map RateData.sourceId).map weights).sum =
      weights s + ((rates.map RateData.sourceId).map weights).sum := by
    simp
  have hTW := totalWeight_eq_map rates
  refine ⟨hpos, by omega, ?_⟩
  rw [calculateDOR, if_neg (by omega)]

/-- Claim C7 witness: the four-observation set missing ONDO_USDY has
positive total weight 9000 = 10000 - 1000 and aggregates via the
renormalized denominator. -/
theorem c7_absent_source_renormalizes_witness :
    0 < totalWeight rates4 ∧
    totalWeight rates4 + weights RateSourceId.ONDO_USDY ≤ 10000 ∧
    calculateDOR rates4 = jsRound (weightedSum rates4) (totalWeight rates4) :=
  c7_absent_source_renormalizes rates4 RateSourceId.ONDO_USDY (by decide) (by decide)
    (by decide)

/-- Claim C10: `calculateDOR` is total on the empty observation set —
no division happens there — and more generally whenever the total
present weight is 0 it returns the hardcoded 460 bps default instead
of failing. -/
theorem c10_zero_weight_default :
    calculateDOR [] = 460 ∧
    ∀ rates : List RateData, totalWeight rates = 0 → calculateDOR rates = 460 := by
  refine ⟨rfl, ?_⟩
  intro rates h
  simp [calculateDOR, h]

/-- Claim C10 witness: the empty observation set has total weight 0 and
aggregates to the 460 bps default. -/
theorem c10_zero_weight_default_witness : calculateDOR [] = 460 :=
  c10_zero_weight_default.2 [] rfl

-- ===== Validation of all-fallback sets =====

/-- Claim C9: a full observation set of five non-live fallback values
with nonnegative rates still validates (`isValid = true`), its fallback
count 5 exceeds the threshold 2, and the too-many-fallback warning is
among the warnings; moreover the fallback warning component is emitted
exactly when the count of non-live observations exceeds 2 (empty at
count ≤ 2, the singleton warning above 2). -/
theorem c9_all_fallback_valid_with_warning (now : Int) (rates : List RateData)
    (hlen : rates.length = 5)
    (hfb : ∀ r ∈ rates, r.isLive = false)
    (hnn : ∀ r ∈ rates, 0 ≤ r.rate) :
    (validateRates now rates).isValid = true ∧
    fallbackCount rates = 5 ∧
    mkFallbackWarning (fallbackCount rates) ∈ (validateRates now rates).warnings ∧
    (∀ rs : List RateData, fallbackCount rs ≤ 2 → fallbackWarnings rs = []) ∧
    (∀ rs : List RateData, 2 < fallbackCount rs →
      fallbackWarnings rs = [mkFallbackWarning (fallbackCount rs)]) := by
  have hle : lengthErrors rates = [] := by
    simp [lengthErrors, hlen]
  have hne : negativeRateErrors rates = [] := by
    apply List.filterMap_eq_nil_iff.mpr
    intro r hr
    simp [not_lt.mpr (hnn r hr)]
  have hvalid : (validateRates now rates).isValid = true := by
    simp [validateRates, hle, hne]
  have hfc : fallbackCount rates = 5 := by
    have hfilter : rates.filter (fun r => !r.isLive) = rates := by
      apply List.filter_eq_self.mpr
      intro r hr
      simp [hfb r hr]
    rw [fallbackCount, hfilter, hlen]
  have hfw : fallbackWarnings rates = [mkFallbackWarning (fallbackCount rates)] := by
    rw [fallbackWarnings]
    simp [hfc]
  have hmem : mkFallbackWarning (fallbackCount rates) ∈ (validateRates now rates).warnings := by
    show mkFallbackWarning (fallbackCount rates) ∈
      staleWarnings now rates ++ highRateWarnings rates ++ fallbackWarnings rates
    refine List.mem_append_right _ ?_
    rw [hfw]
    exact List.mem_singleton_self _
  refine ⟨hvalid, hfc, hmem, ?_, ?_⟩
  · intro rs h
    rw [fallbackWarnings]
    simp [Nat.not_lt.mpr h]
  · intro rs h
    rw [fallbackWarnings]
    simp [h]

/-- The all-fallback observation set (each source's hardcoded fallback
value) used as the C9 witness input. -/
def fbRates : List RateData :=
  [{ sourceId := .TESR, name := "TESR", rate := 350, timestamp := 0,
     source := "Fallback", isLive := false },
   { sourceId := .METH, name := "mETH", rate := 450, timestamp := 0,
     source := "Fallback", isLive := false },
   { sourceId := .SOFR, name := "SOFR", rate := 460, timestamp := 0,
     source := "Fallback", isLive := false },
   { sourceId := .AAVE_USDT, name := "Aave_USDT", rate := 550, timestamp := 0,
     source := "Fallback", isLive := false },
   { sourceId := .ONDO_USDY, name := "Ondo_USDY", rate := 500, timestamp := 0,
     source := "Fallback", isLive := false }]

/-- Claim C9 witness: the concrete all-fallback set validates with the
"5/5 sources using fallback values" warning present. -/
theorem c9_all_fallback_valid_with_warning_witness :
    (validateRates 0 fbRates).isValid = true ∧
    fallbackCount fbRates = 5 ∧
    mkFallbackWarning (fallbackCount fbRates) ∈ (validateRates 0 fbRates).warnings := by
  obtain ⟨h1, h2, h3, _, _⟩ :=
    c9_all_fallback_valid_with_warning 0 fbRates (by decide) (by decide) (by decide)
  exact ⟨h1, h2, h3⟩
